import Mathlib

/-!
Verification of `src/export_invoice.py` (Bill.com invoice exporter).

The Python module is shallowly embedded here:

* An invoice record is an opaque JSON object of which the core reads only
  the fields `id` and `invoiceDate`; we model it as a structure with those
  two optional string fields (`none` = field absent).  Python truthiness of
  a `dict.get` result (`None` or `""` are falsy) is modelled by `truthyStr`.
* `list_invoices_created_between` is a `while True` loop issuing HTTP GET
  requests.  The server is modelled as the finite list of responses it
  gives to the successive requests; each response is either a transport or
  status error (`requests.raise_for_status`) or a JSON page
  `\x7bresults: [...], nextPage: cursor?\x7d`.  `listLoop` replays the loop
  against that response list and records the parameter dictionary of every
  request issued (`\x7bfilters: ...\x7d` or `\x7bpage: ...\x7d`), together with the
  final outcome: `none` while the loop is still awaiting a response,
  `some (ok records)` after `break`, `some (err e)` when an exception
  propagates.
* `export_pdfs` is replayed as a pure recursion producing the list of
  files written (filename and fetched bytes, in write order) and the list
  of diagnostic messages printed, threading the `seen` dictionary.
* `_login` response handling is replayed over a model HTTP response.
-/

/-- Model of an invoice record: an opaque mapping of which the code reads
only `id` and `invoiceDate` (both strings when present; `none` = absent). -/
structure Invoice where
  id : Option String
  invoiceDate : Option String
deriving DecidableEq

/-- Python truthiness of `dict.get(key)` for a string-valued field:
`None` (absent) and the empty string are falsy. -/
def truthyStr : Option String → Bool
  | none => false
  | some s => !(s == "")

/-- Model of one page of the listing endpoint's JSON body:
`results` (absent modelled as `[]`, matching `data.get("results", [])`)
and the optional `nextPage` cursor. -/
structure Page where
  results : List Invoice
  nextPage : Option String
deriving DecidableEq

/-- Parameter dictionary of one listing request: the code sends either
`\x7b"page": cursor\x7d` or `\x7b"filters": expr\x7d`, never both. -/
inductive ListRequest where
  | withFilters (filters : String)
  | withPage (cursor : String)
deriving DecidableEq

/-- Final outcome of the listing loop: the accumulated records on `break`,
or the propagated exception of a failed request. -/
inductive ListOutcome where
  | ok (records : List Invoice)
  | err (e : String)
deriving DecidableEq

/-- Python `"page": next_page if next_page else "filters": filters`:
the cursor is used iff it is truthy. -/
def mkRequest (filters : String) (next_page : Option String) : ListRequest :=
  match next_page with
  | none => ListRequest.withFilters filters
  | some s => if s == "" then ListRequest.withFilters filters else ListRequest.withPage s

/-- Filter expression built at line 69 of the source:
`createdTime:gte:"start_date",createdTime:lt:"end_date"` —
`gte` makes the start inclusive, `lt` makes the end exclusive. -/
def mkFilters (start_date end_date : String) : String :=
  "createdTime:gte:\"" ++ start_date ++ "\",createdTime:lt:\"" ++ end_date ++ "\""

/-- Replay of the `while True` loop of `list_invoices_created_between`
against the server's response list.  Returns the requests issued, in
order, and the outcome (`none` if the loop is still awaiting a response
beyond the given list). -/
def listLoop (filters : String) (acc : List Invoice) (next_page : Option String) :
    List (Except String Page) → List ListRequest × Option ListOutcome
  | [] => ([mkRequest filters next_page], none)
  | resp :: rest =>
    match resp with
    | Except.error e => ([mkRequest filters next_page], some (ListOutcome.err e))
    | Except.ok page =>
      if truthyStr page.nextPage then
        let r := listLoop filters (acc ++ page.results) page.nextPage rest
        (mkRequest filters next_page :: r.1, r.2)
      else
        ([mkRequest filters next_page], some (ListOutcome.ok (acc ++ page.results)))

/-- Model of `list_invoices_created_between(start_date, end_date)` run
against a server answering the successive requests with `responses`. -/
def list_invoices_created_between (start_date end_date : String)
    (responses : List (Except String Page)) :
    List ListRequest × Option ListOutcome :=
  listLoop (mkFilters start_date end_date) [] none responses

/-- Characterisation of a complete successful pagination run: if every
page of `front` carries a truthy cursor and `last` does not, the loop
issues one request per page (the first from `np`, then one per cursor),
returns all results concatenated after `acc`, and never touches the
`extra` responses beyond the final page. -/
theorem listLoop_chain (filters : String) (last : Page)
    (extra : List (Except String Page)) (front : List Page) :
    ∀ (acc : List Invoice) (np : Option String),
    (∀ p ∈ front, truthyStr p.nextPage = true) →
    truthyStr last.nextPage = false →
    listLoop filters acc np (((front ++ [last]).map Except.ok) ++ extra)
      = (mkRequest filters np :: front.map (fun p => mkRequest filters p.nextPage),
         some (ListOutcome.ok (acc ++ ((front ++ [last]).map Page.results).flatten))) := by
  induction front with
  | nil =>
    intro acc np _ hlast
    simp [listLoop, hlast]
  | cons p fs ih =>
    intro acc np hfront hlast
    have hp : truthyStr p.nextPage = true := hfront p (by simp)
    have ih' := ih (acc ++ p.results) p.nextPage
      (fun q hq => hfront q (by simp [hq])) hlast
    simp only [List.map_append, List.map_cons, List.map_nil, List.nil_append,
      List.append_assoc, List.cons_append] at ih'
    simp [listLoop, hp, ih', List.append_assoc]

/-- Characterisation of a failed pagination run: if every page of `front`
carries a truthy cursor and the next response is an error, the loop
propagates the error; the outcome carries no records. -/
theorem listLoop_error (filters e : String)
    (extra : List (Except String Page)) (front : List Page) :
    ∀ (acc : List Invoice) (np : Option String),
    (∀ p ∈ front, truthyStr p.nextPage = true) →
    listLoop filters acc np ((front.map Except.ok) ++ Except.error e :: extra)
      = (mkRequest filters np :: front.map (fun p => mkRequest filters p.nextPage),
         some (ListOutcome.err e)) := by
  induction front with
  | nil =>
    intro acc np _
    simp [listLoop]
  | cons p fs ih =>
    intro acc np hfront
    have hp : truthyStr p.nextPage = true := hfront p (by simp)
    have ih' := ih (acc ++ p.results) p.nextPage
      (fun q hq => hfront q (by simp [hq]))
    simp only [List.map_cons, List.cons_append, List.append_assoc] at ih'
    simp [listLoop, hp, ih']

/-- Truthy cursors are exactly the non-empty `some` values, and the
request they produce is the cursor-only request. -/
theorem mkRequest_of_truthy (filters : String) (np : Option String)
    (h : truthyStr np = true) :
    mkRequest filters np = ListRequest.withPage (np.getD "") := by
  cases np with
  | none => simp [truthyStr] at h
  | some s =>
    simp only [truthyStr, Bool.not_eq_true'] at h
    simp [mkRequest, h]

/-- Sample invoices and pages used to instantiate the claim theorems. -/
def sampleInvA : Invoice := ⟨some "A", some "2024-01-05"⟩

def sampleInvB : Invoice := ⟨some "B", some "2024-01-06"⟩

def sampleInvC : Invoice := ⟨some "C", some "2024-01-07"⟩

def samplePage1 : Page := ⟨[sampleInvA, sampleInvB], some "cursor1"⟩

def samplePage2 : Page := ⟨[sampleInvC], none⟩

/-- C1: Pagination completeness — for every finite chain of pages
(each non-final page with a truthy cursor, the final page without),
`list_invoices_created_between` returns the concatenation of the pages'
`results` arrays in page order and within-page order, and its length is
the sum of the pages' record counts. -/
theorem c1_pagination_completeness (start_date end_date : String)
    (front : List Page) (last : Page)
    (hfront : ∀ p ∈ front, truthyStr p.nextPage = true)
    (hlast : truthyStr last.nextPage = false) :
    (list_invoices_created_between start_date end_date
        ((front ++ [last]).map Except.ok)).2
      = some (ListOutcome.ok (((front ++ [last]).map Page.results).flatten))
    ∧ (((front ++ [last]).map Page.results).flatten).length
      = ((front ++ [last]).map (fun p => p.results.length)).sum := by
  have h := listLoop_chain (mkFilters start_date end_date) last [] front [] none
    hfront hlast
  rw [List.append_nil] at h
  unfold list_invoices_created_between
  rw [h]
  refine ⟨by simp, ?_⟩
  simp only [List.length_flatten, List.map_map]
  rfl

/-- C1 witness: a two-page chain with three records in total. -/
theorem c1_pagination_completeness_witness :
    (list_invoices_created_between "2024-01-01" "2024-02-01"
        (([samplePage1] ++ [samplePage2]).map Except.ok)).2
      = some (ListOutcome.ok ((([samplePage1] ++ [samplePage2]).map Page.results).flatten))
    ∧ ((([samplePage1] ++ [samplePage2]).map Page.results).flatten).length
      = (([samplePage1] ++ [samplePage2]).map (fun p => p.results.length)).sum :=
  c1_pagination_completeness "2024-01-01" "2024-02-01" [samplePage1] samplePage2
    (by decide) (by decide)

/-- C2: Request-shape invariant — on a complete chain the first request
carries only the filter expression (built with `gte` on `start_date`,
inclusive, and `lt` on `end_date`, exclusive) and no cursor, and every
request after the first carries only the cursor from the previous
response, never the filter expression. -/
theorem c2_request_shape (start_date end_date : String)
    (front : List Page) (last : Page)
    (hfront : ∀ p ∈ front, truthyStr p.nextPage = true)
    (hlast : truthyStr last.nextPage = false) :
    (list_invoices_created_between start_date end_date
        ((front ++ [last]).map Except.ok)).1
      = ListRequest.withFilters (mkFilters start_date end_date)
          :: front.map (fun p => ListRequest.withPage (p.nextPage.getD "")) := by
  have h := listLoop_chain (mkFilters start_date end_date) last [] front [] none
    hfront hlast
  rw [List.append_nil] at h
  unfold list_invoices_created_between
  rw [h]
  simp only [mkRequest]
  congr 1
  exact List.map_congr_left fun p hp => mkRequest_of_truthy _ _ (hfront p hp)

/-- C2 witness: the two-page chain issues the filter request then the
cursor-only request. -/
theorem c2_request_shape_witness :
    (list_invoices_created_between "2024-01-01" "2024-02-01"
        (([samplePage1] ++ [samplePage2]).map Except.ok)).1
      = ListRequest.withFilters (mkFilters "2024-01-01" "2024-02-01")
          :: [samplePage1].map (fun p => ListRequest.withPage (p.nextPage.getD "")) :=
  c2_request_shape "2024-01-01" "2024-02-01" [samplePage1] samplePage2
    (by decide) (by decide)

/-- C3: Pagination termination — once a response carries no cursor the
loop issues no further requests (appending extra responses after the
final page leaves the request list unchanged), and exactly one request
is issued per page of the chain. -/
theorem c3_pagination_termination (start_date end_date : String)
    (front : List Page) (last : Page) (extra : List (Except String Page))
    (hfront : ∀ p ∈ front, truthyStr p.nextPage = true)
    (hlast : truthyStr last.nextPage = false) :
    (list_invoices_created_between start_date end_date
        (((front ++ [last]).map Except.ok) ++ extra)).1
      = (list_invoices_created_between start_date end_date
          ((front ++ [last]).map Except.ok)).1
    ∧ (list_invoices_created_between start_date end_date
        (((front ++ [last]).map Except.ok) ++ extra)).1.length
      = (front ++ [last]).length := by
  have h1 := listLoop_chain (mkFilters start_date end_date) last extra front [] none
    hfront hlast
  have h2 := listLoop_chain (mkFilters start_date end_date) last [] front [] none
    hfront hlast
  rw [List.append_nil] at h2
  unfold list_invoices_created_between
  rw [h1, h2]
  simp [Nat.add_comm]

/-- C3 witness: appending two extra responses after the final page of the
two-page chain leaves the requests unchanged, two requests in total. -/
theorem c3_pagination_termination_witness :
    (list_invoices_created_between "2024-01-01" "2024-02-01"
        ((([samplePage1] ++ [samplePage2]).map Except.ok)
          ++ [Except.ok samplePage1, Except.error "late"])).1
      = (list_invoices_created_between "2024-01-01" "2024-02-01"
          (([samplePage1] ++ [samplePage2]).map Except.ok)).1
    ∧ (list_invoices_created_between "2024-01-01" "2024-02-01"
        ((([samplePage1] ++ [samplePage2]).map Except.ok)
          ++ [Except.ok samplePage1, Except.error "late"])).1.length
      = ([samplePage1] ++ [samplePage2]).length :=
  c3_pagination_termination "2024-01-01" "2024-02-01" [samplePage1] samplePage2
    [Except.ok samplePage1, Except.error "late"] (by decide) (by decide)

/-- C4: All-or-nothing listing — if the request after `front` fails, the
whole call fails with that error and no partial collection is returned:
the outcome is never `ok records` for any `records`. -/
theorem c4_all_or_nothing (start_date end_date e : String)
    (front : List Page) (extra : List (Except String Page))
    (hfront : ∀ p ∈ front, truthyStr p.nextPage = true) :
    (list_invoices_created_between start_date end_date
        ((front.map Except.ok) ++ Except.error e :: extra)).2
      = some (ListOutcome.err e)
    ∧ ∀ records,
        (list_invoices_created_between start_date end_date
          ((front.map Except.ok) ++ Except.error e :: extra)).2
        ≠ some (ListOutcome.ok records) := by
  have h := listLoop_error (mkFilters start_date end_date) e extra front [] none hfront
  unfold list_invoices_created_between
  rw [h]
  exact ⟨rfl, fun records hcontra => by simp at hcontra⟩

/-- C4 witness: the third of five pages fails; the outcome is the error
and in particular not the records of the first two pages. -/
theorem c4_all_or_nothing_witness :
    (list_invoices_created_between "2024-01-01" "2024-02-01"
        (([samplePage1, samplePage1].map Except.ok)
          ++ Except.error "HTTP 500" :: [Except.ok samplePage1, Except.ok samplePage2])).2
      = some (ListOutcome.err "HTTP 500")
    ∧ ∀ records,
        (list_invoices_created_between "2024-01-01" "2024-02-01"
          (([samplePage1, samplePage1].map Except.ok)
            ++ Except.error "HTTP 500" :: [Except.ok samplePage1, Except.ok samplePage2])).2
        ≠ some (ListOutcome.ok records) :=
  c4_all_or_nothing "2024-01-01" "2024-02-01" "HTTP 500" [samplePage1, samplePage1]
    [Except.ok samplePage1, Except.ok samplePage2] (by decide)

/-- Python `str.strip()` on the character list of a string: drop leading
and trailing whitespace. -/
def stripStr (s : String) : String :=
  String.mk (((s.data.dropWhile Char.isWhitespace).reverse.dropWhile
    Char.isWhitespace).reverse)

/-- Python `s.split(sep, 1)[0]` for a one-character separator: the prefix
of `s` before the first occurrence of `sep` (all of `s` if absent). -/
def takeBeforeChar (sep : Char) (s : String) : String :=
  String.mk (s.data.takeWhile (fun c => !(c == sep)))

/-- Python `s.replace(old, new)` for one-character `old` and `new`. -/
def replaceChar (old new : Char) (s : String) : String :=
  String.mk (s.data.map (fun c => if c == old then new else c))

/-- Base filename derived from the date field, lines 111-113 of the
source: `str(invoice_date).strip()`, then the substring before `"T"`,
then the substring before `" "`, then `"/"` and `":"` replaced by `"-"`. -/
def baseName (invoice_date : String) : String :=
  replaceChar ':' '-' (replaceChar '/' '-'
    (takeBeforeChar ' ' (takeBeforeChar 'T' (stripStr invoice_date))))

/-- Python `seen.get(base_name, 0)` on the model of the `seen` dict. -/
def dictGet : List (String × Nat) → String → Nat
  | [], _ => 0
  | p :: rest, k => if p.1 == k then p.2 else dictGet rest k

/-- Python `seen[base_name] = count + 1` on the model of the `seen` dict:
replace the binding if the key is present, append it otherwise. -/
def dictSet : List (String × Nat) → String → Nat → List (String × Nat)
  | [], k, v => [(k, v)]
  | p :: rest, k, v => if p.1 == k then (k, v) :: rest else p :: dictSet rest k v

/-- Diagnostic printed at line 106 of the source for a record with a
truthy identifier but falsy date. -/
def skipMsg (invoice_id : String) : String :=
  "Skipping invoice " ++ invoice_id ++ " (missing invoiceDate)."

/-- Replay of `export_pdfs(invoices, out_dir)`: `fetch` models
`get_invoice_pdf` (the bytes returned for an identifier), `seen` is the
collision dictionary.  Returns the files written (filename and content,
in write order) and the diagnostic messages printed, in order. -/
def export_pdfs (fetch : String → String) (seen : List (String × Nat)) :
    List Invoice → List (String × String) × List String
  | [] => ([], [])
  | invoice :: rest =>
    if truthyStr invoice.id = false then
      export_pdfs fetch seen rest
    else
      let invoice_id := invoice.id.getD ""
      if truthyStr invoice.invoiceDate = false then
        let out := export_pdfs fetch seen rest
        (out.1, skipMsg invoice_id :: out.2)
      else
        let invoice_date := invoice.invoiceDate.getD ""
        let pdf := fetch invoice_id
        let base_name := baseName invoice_date
        let count := dictGet seen base_name
        let filename :=
          if count == 0 then base_name ++ ".pdf"
          else base_name ++ "-" ++ invoice_id ++ ".pdf"
        let out := export_pdfs fetch (dictSet seen base_name (count + 1)) rest
        ((filename, pdf) :: out.1, out.2)

/-- A record passes both skip checks iff its `id` and its `invoiceDate`
are truthy. -/
def passesChecks (invoice : Invoice) : Bool :=
  truthyStr invoice.id && truthyStr invoice.invoiceDate

/-- Records of the input collection that pass both skip checks, in input
order: exactly the records for which a file is written. -/
def exportedRecords (invoices : List Invoice) : List Invoice :=
  invoices.filter passesChecks

/-- Filenames assigned to a list of already-filtered records, threading
the collision dictionary exactly as `export_pdfs` does. -/
def namesFrom (seen : List (String × Nat)) : List Invoice → List String
  | [] => []
  | invoice :: rest =>
    let b := baseName (invoice.invoiceDate.getD "")
    let c := dictGet seen b
    (if c == 0 then b ++ ".pdf" else b ++ "-" ++ invoice.id.getD "" ++ ".pdf")
      :: namesFrom (dictSet seen b (c + 1)) rest

/-- Number of records of `l` whose date derives the base name `b`. -/
def countBase (b : String) (l : List Invoice) : Nat :=
  (l.filter (fun invoice => baseName (invoice.invoiceDate.getD "") == b)).length

/-- Looking up the key just set returns the value just set. -/
theorem dictGet_dictSet_same (d : List (String × Nat)) (k : String) (v : Nat) :
    dictGet (dictSet d k v) k = v := by
  induction d with
  | nil => simp [dictGet, dictSet]
  | cons p rest ih =>
    by_cases h : p.1 = k
    · simp [dictGet, dictSet, h]
    · simp [dictGet, dictSet, h, ih]

/-- Setting one key leaves the lookups of every other key unchanged. -/
theorem dictGet_dictSet_ne (d : List (String × Nat)) (k k' : String) (v : Nat)
    (hne : ¬ k' = k) :
    dictGet (dictSet d k v) k' = dictGet d k' := by
  have hne' : ¬ k = k' := fun hh => hne hh.symm
  induction d with
  | nil => simp [dictGet, dictSet, hne']
  | cons p rest ih =>
    by_cases h : p.1 = k
    · simp [dictGet, dictSet, h, hne']
    · simp [dictGet, dictSet, h, ih]

/-- The filenames of the files written by `export_pdfs` are exactly the
names assigned by `namesFrom` to the records passing both skip checks. -/
theorem export_files_eq (fetch : String → String) (invoices : List Invoice) :
    ∀ seen : List (String × Nat),
    (export_pdfs fetch seen invoices).1.map Prod.fst
      = namesFrom seen (exportedRecords invoices) := by
  induction invoices with
  | nil => intro seen; rfl
  | cons invoice rest ih =>
    intro seen
    cases hid : truthyStr invoice.id with
    | false =>
      simpa [export_pdfs, hid, exportedRecords, List.filter_cons, passesChecks]
        using ih seen
    | true =>
      cases hdate : truthyStr invoice.invoiceDate with
      | false =>
        simpa [export_pdfs, hid, hdate, exportedRecords, List.filter_cons, passesChecks]
          using ih seen
      | true =>
        simp [export_pdfs, hid, hdate, exportedRecords, List.filter_cons, passesChecks,
          namesFrom, ih]

/-- The number of names assigned equals the number of records. -/
theorem namesFrom_length (ex : List Invoice) :
    ∀ seen, (namesFrom seen ex).length = ex.length := by
  induction ex with
  | nil => intro seen; rfl
  | cons invoice rest ih => intro seen; simp [namesFrom, ih]

/-- Unfolding `countBase` over a cons cell. -/
theorem countBase_cons (b : String) (invoice : Invoice) (l : List Invoice) :
    countBase b (invoice :: l)
      = (if baseName (invoice.invoiceDate.getD "") = b then 1 else 0) + countBase b l := by
  by_cases h : baseName (invoice.invoiceDate.getD "") = b
  · simp [countBase, List.filter_cons, h, Nat.add_comm]
  · simp [countBase, List.filter_cons, h]

/-- Indexing characterisation of the assigned names: the `i`-th record
gets the bare `<base>.pdf` iff the dictionary count plus the number of
earlier records with the same base name is zero, and
`<base>-<id>.pdf` otherwise. -/
theorem namesFrom_get (ex : List Invoice) :
    ∀ (seen : List (String × Nat)) (i : Nat) (h : i < ex.length),
    (namesFrom seen ex).get? i
      = some
        (if dictGet seen (baseName ((ex.get ⟨i, h⟩).invoiceDate.getD ""))
              + countBase (baseName ((ex.get ⟨i, h⟩).invoiceDate.getD "")) (ex.take i) = 0
         then baseName ((ex.get ⟨i, h⟩).invoiceDate.getD "") ++ ".pdf"
         else baseName ((ex.get ⟨i, h⟩).invoiceDate.getD "") ++ "-"
              ++ ((ex.get ⟨i, h⟩).id.getD "") ++ ".pdf") := by
  induction ex with
  | nil => intro seen i h; exact absurd h (by simp)
  | cons invoice rest ih =>
    intro seen i h
    cases i with
    | zero =>
      simp [namesFrom, countBase]
    | succ i =>
      have h' : i < rest.length := Nat.lt_of_succ_lt_succ h
      have lhs : (namesFrom seen (invoice :: rest)).get? (i + 1)
          = (namesFrom (dictSet seen (baseName (invoice.invoiceDate.getD ""))
              (dictGet seen (baseName (invoice.invoiceDate.getD "")) + 1)) rest).get? i := by
        simp [namesFrom]
      rw [lhs, ih _ i h']
      have hget : (invoice :: rest).get ⟨i + 1, h⟩ = rest.get ⟨i, h'⟩ := rfl
      rw [hget]
      have key : dictGet (dictSet seen (baseName (invoice.invoiceDate.getD ""))
            (dictGet seen (baseName (invoice.invoiceDate.getD "")) + 1))
            (baseName ((rest.get ⟨i, h'⟩).invoiceDate.getD ""))
            + countBase (baseName ((rest.get ⟨i, h'⟩).invoiceDate.getD "")) (rest.take i)
          = dictGet seen (baseName ((rest.get ⟨i, h'⟩).invoiceDate.getD ""))
            + countBase (baseName ((rest.get ⟨i, h'⟩).invoiceDate.getD ""))
                ((invoice :: rest).take (i + 1)) := by
        rw [List.take_succ_cons, countBase_cons]
        by_cases hbb : baseName (invoice.invoiceDate.getD "")
            = baseName ((rest.get ⟨i, h'⟩).invoiceDate.getD "")
        · rw [hbb, dictGet_dictSet_same]
          simp
          omega
        · rw [dictGet_dictSet_ne _ _ _ _ (fun hh => hbb hh.symm)]
          simp only [List.get_eq_getElem] at hbb
          simp [hbb]
      rw [key]

/-- A bare `<base>.pdf` name never equals a suffixed `<base>-<id>.pdf`
name for the same base. -/
theorem bare_ne_suffixed (b idStr : String) :
    b ++ ".pdf" ≠ b ++ "-" ++ idStr ++ ".pdf" := by
  intro h
  have hd := congrArg String.data h
  simp only [String.data_append] at hd
  have h0 : b.data ++ (".pdf" : String).data
      = b.data ++ (("-" : String).data ++ idStr.data ++ (".pdf" : String).data) := by
    simp only [List.append_assoc] at hd
    exact hd
  have h1 := List.append_cancel_left h0
  have hlen := congrArg List.length h1
  rw [List.length_append, List.length_append] at hlen
  have l1 : (".pdf" : String).data.length = 4 := rfl
  have l2 : ("-" : String).data.length = 1 := rfl
  rw [l1, l2] at hlen
  omega

/-- Two suffixed names with the same base are equal only if the suffixed
identifiers are equal. -/
theorem suffixed_inj (b x y : String)
    (h : b ++ "-" ++ x ++ ".pdf" = b ++ "-" ++ y ++ ".pdf") : x = y := by
  have hd := congrArg String.data h
  simp only [String.data_append] at hd
  have h0 : (b.data ++ ("-" : String).data) ++ (x.data ++ (".pdf" : String).data)
      = (b.data ++ ("-" : String).data) ++ (y.data ++ (".pdf" : String).data) := by
    simpa [List.append_assoc] using hd
  have h1 := List.append_cancel_left h0
  exact String.ext (List.append_cancel_right h1)

/-- Every record that passes both skip checks has truthy `id` and
truthy `invoiceDate`. -/
theorem exportedRecords_truthy (invoices : List Invoice) (invoice : Invoice)
    (h : invoice ∈ exportedRecords invoices) :
    truthyStr invoice.id = true ∧ truthyStr invoice.invoiceDate = true := by
  have hp := List.of_mem_filter h
  simpa [passesChecks, Bool.and_eq_true] using hp

/-- A truthy optional string holds a non-empty value. -/
theorem truthy_getD_ne (o : Option String) (h : truthyStr o = true) :
    o.getD "" ≠ "" := by
  cases o with
  | none => simp [truthyStr] at h
  | some s =>
    simp only [truthyStr, Bool.not_eq_true'] at h
    simpa using h

/-- C5: Filename algorithm — for every record that passes both skip
checks, the file written for it is named from the date's base (the
substring before `T` or the first space, with `/` and `:` replaced by
`-`, per `baseName`): the bare `<base>.pdf` when no earlier exported
record produced the same base name, and `<base>-<record_id>.pdf` when
one did. -/
theorem c5_filename_algorithm (fetch : String → String) (invoices : List Invoice)
    (i : Nat) (h : i < (exportedRecords invoices).length) :
    ((export_pdfs fetch [] invoices).1.map Prod.fst).get? i
      = some
        (if countBase (baseName (((exportedRecords invoices).get ⟨i, h⟩).invoiceDate.getD ""))
              ((exportedRecords invoices).take i) = 0
         then baseName (((exportedRecords invoices).get ⟨i, h⟩).invoiceDate.getD "") ++ ".pdf"
         else baseName (((exportedRecords invoices).get ⟨i, h⟩).invoiceDate.getD "") ++ "-"
              ++ (((exportedRecords invoices).get ⟨i, h⟩).id.getD "") ++ ".pdf") := by
  rw [export_files_eq, namesFrom_get _ _ i h]
  simp [dictGet]

/-- C5 witness: the spec's own example — dates `2024-01-05`,
`2024-01-05T10:00:00Z`, `2024-01-06` with ids `A`, `B`, `C`: the second
record collides on base `2024-01-05` and is written as
`2024-01-05-B.pdf`. -/
theorem c5_filename_algorithm_witness :
    ((export_pdfs (fun _ => "PDF") []
        [⟨some "A", some "2024-01-05"⟩, ⟨some "B", some "2024-01-05T10:00:00Z"⟩,
         ⟨some "C", some "2024-01-06"⟩]).1.map Prod.fst).get? 1
      = some "2024-01-05-B.pdf" :=
  (c5_filename_algorithm (fun _ => "PDF")
    [⟨some "A", some "2024-01-05"⟩, ⟨some "B", some "2024-01-05T10:00:00Z"⟩,
     ⟨some "C", some "2024-01-06"⟩] 1 (by decide)).trans (by decide)

/-- Distinctness of assigned filenames for two same-base records at
positions `i < j` with distinct identifiers: the later one is always
suffixed with its identifier, so it differs both from the bare name and
from a name suffixed with a different identifier. -/
theorem names_distinct_of_lt (fetch : String → String) (invoices : List Invoice)
    (i j : Nat) (hi : i < (exportedRecords invoices).length)
    (hj : j < (exportedRecords invoices).length) (hij : i < j)
    (hb : baseName (((exportedRecords invoices).get ⟨i, hi⟩).invoiceDate.getD "")
        = baseName (((exportedRecords invoices).get ⟨j, hj⟩).invoiceDate.getD ""))
    (hid : ((exportedRecords invoices).get ⟨i, hi⟩).id.getD ""
        ≠ ((exportedRecords invoices).get ⟨j, hj⟩).id.getD "") :
    ((export_pdfs fetch [] invoices).1.map Prod.fst).get? i
      ≠ ((export_pdfs fetch [] invoices).1.map Prod.fst).get? j := by
  have hni := namesFrom_get (exportedRecords invoices) [] i hi
  have hnj := namesFrom_get (exportedRecords invoices) [] j hj
  simp only [List.get_eq_getElem] at hni hnj hb hid
  rw [export_files_eq, hni, hnj]
  have hmemtake : (exportedRecords invoices)[i] ∈ (exportedRecords invoices).take j := by
    have hlen : i < ((exportedRecords invoices).take j).length := by
      rw [List.length_take]
      omega
    have hgt : ((exportedRecords invoices).take j)[i]
        = (exportedRecords invoices)[i] := by
      simp [List.getElem_take]
    rw [← hgt]
    exact List.getElem_mem _
  have hcount : countBase
      (baseName ((exportedRecords invoices)[j].invoiceDate.getD ""))
      ((exportedRecords invoices).take j) ≠ 0 := by
    intro h0
    have hmemf : (exportedRecords invoices)[i]
        ∈ ((exportedRecords invoices).take j).filter
          (fun invoice => baseName (invoice.invoiceDate.getD "")
            == baseName ((exportedRecords invoices)[j].invoiceDate.getD "")) :=
      List.mem_filter.2 ⟨hmemtake, by simp [hb]⟩
    rw [countBase, List.length_eq_zero] at h0
    rw [h0] at hmemf
    exact absurd hmemf (List.not_mem_nil _)
  have hcondj : ¬ (dictGet [] (baseName ((exportedRecords invoices)[j].invoiceDate.getD ""))
      + countBase (baseName ((exportedRecords invoices)[j].invoiceDate.getD ""))
        ((exportedRecords invoices).take j) = 0) := by
    simp only [dictGet]
    omega
  intro hcontra
  rw [Option.some.injEq, if_neg hcondj] at hcontra
  by_cases hci : countBase
      (baseName ((exportedRecords invoices)[i].invoiceDate.getD ""))
      ((exportedRecords invoices).take i) = 0
  · rw [if_pos (by simp only [dictGet]; omega)] at hcontra
    rw [hb] at hcontra
    exact bare_ne_suffixed _ _ hcontra
  · rw [if_neg (by simp only [dictGet]; omega)] at hcontra
    rw [hb] at hcontra
    exact hid (suffixed_inj _ _ _ hcontra)

/-- C6 (amended): Collision-free naming holds for same-base records with
distinct identifiers — within a single export run, any two distinct
exported records whose dates derive the same base name and whose
identifiers differ are assigned distinct filenames.  (As originally
stated the claim is false in the two ways the counterexample exhibits,
forcing both restrictions: with a repeated identifier two later
same-base records both get `<base>-<id>.pdf`, and across base names a
first use of base `<b>-<id>` gets the bare name that coincides with the
suffixed name of a later record of base `<b>` and identifier `<id>`.) -/
theorem c6_collision_free_amended (fetch : String → String) (invoices : List Invoice)
    (i j : Nat) (hi : i < (exportedRecords invoices).length)
    (hj : j < (exportedRecords invoices).length) (hij : i ≠ j)
    (hb : baseName (((exportedRecords invoices).get ⟨i, hi⟩).invoiceDate.getD "")
        = baseName (((exportedRecords invoices).get ⟨j, hj⟩).invoiceDate.getD ""))
    (hid : ((exportedRecords invoices).get ⟨i, hi⟩).id.getD ""
        ≠ ((exportedRecords invoices).get ⟨j, hj⟩).id.getD "") :
    ((export_pdfs fetch [] invoices).1.map Prod.fst).get? i
      ≠ ((export_pdfs fetch [] invoices).1.map Prod.fst).get? j := by
  rcases Nat.lt_or_ge i j with hlt | hge
  · exact names_distinct_of_lt fetch invoices i j hi hj hlt hb hid
  · have hlt : j < i := Nat.lt_of_le_of_ne hge (fun hh => hij hh.symm)
    exact (names_distinct_of_lt fetch invoices j i hj hi hlt hb.symm
      (fun hh => hid hh.symm)).symm

/-- C6 counterexample: the claim fails in two independent ways, each
forcing one restriction of the amendment.  First run (repeated
identifier, same base): records 1 and 2 (0-based) are distinct exported
records, yet both are written as `2024-01-05-B.pdf`, so the second
overwrites the first.  Second run (distinct identifiers `B` and `X`,
different base names `2024-01-05` and `2024-01-05-B`): record 1's
suffixed name coincides with record 2's bare name — both
`2024-01-05-B.pdf` again. -/
theorem c6_collision_free_counterexample :
    ((exportedRecords [⟨some "A", some "2024-01-05"⟩, ⟨some "B", some "2024-01-05"⟩,
        ⟨some "B", some "2024-01-05T10:00:00Z"⟩]).get? 1
      ≠ (exportedRecords [⟨some "A", some "2024-01-05"⟩, ⟨some "B", some "2024-01-05"⟩,
        ⟨some "B", some "2024-01-05T10:00:00Z"⟩]).get? 2
    ∧ ((export_pdfs (fun _ => "PDF") [] [⟨some "A", some "2024-01-05"⟩,
        ⟨some "B", some "2024-01-05"⟩, ⟨some "B", some "2024-01-05T10:00:00Z"⟩]).1.map
        Prod.fst).get? 1
      = ((export_pdfs (fun _ => "PDF") [] [⟨some "A", some "2024-01-05"⟩,
        ⟨some "B", some "2024-01-05"⟩, ⟨some "B", some "2024-01-05T10:00:00Z"⟩]).1.map
        Prod.fst).get? 2
    ∧ ((export_pdfs (fun _ => "PDF") [] [⟨some "A", some "2024-01-05"⟩,
        ⟨some "B", some "2024-01-05"⟩, ⟨some "B", some "2024-01-05T10:00:00Z"⟩]).1.map
        Prod.fst).get? 1 = some "2024-01-05-B.pdf")
    ∧ ((exportedRecords [⟨some "A", some "2024-01-05"⟩, ⟨some "B", some "2024-01-05"⟩,
        ⟨some "X", some "2024-01-05-B"⟩]).get? 1
        = some ⟨some "B", some "2024-01-05"⟩
      ∧ (exportedRecords [⟨some "A", some "2024-01-05"⟩, ⟨some "B", some "2024-01-05"⟩,
        ⟨some "X", some "2024-01-05-B"⟩]).get? 2
        = some ⟨some "X", some "2024-01-05-B"⟩
      ∧ ((export_pdfs (fun _ => "PDF") [] [⟨some "A", some "2024-01-05"⟩,
        ⟨some "B", some "2024-01-05"⟩, ⟨some "X", some "2024-01-05-B"⟩]).1.map
        Prod.fst).get? 1
        = ((export_pdfs (fun _ => "PDF") [] [⟨some "A", some "2024-01-05"⟩,
        ⟨some "B", some "2024-01-05"⟩, ⟨some "X", some "2024-01-05-B"⟩]).1.map
        Prod.fst).get? 2
      ∧ ((export_pdfs (fun _ => "PDF") [] [⟨some "A", some "2024-01-05"⟩,
        ⟨some "B", some "2024-01-05"⟩, ⟨some "X", some "2024-01-05-B"⟩]).1.map
        Prod.fst).get? 2 = some "2024-01-05-B.pdf") := by
  refine ⟨⟨by decide, by decide, by decide⟩, by decide, by decide, by decide, by decide⟩

/-- C6 witness: two same-base records with distinct identifiers get
distinct filenames. -/
theorem c6_collision_free_amended_witness :
    ((export_pdfs (fun _ => "PDF") [] [⟨some "A", some "2024-01-05"⟩,
        ⟨some "B", some "2024-01-05"⟩]).1.map Prod.fst).get? 0
      ≠ ((export_pdfs (fun _ => "PDF") [] [⟨some "A", some "2024-01-05"⟩,
        ⟨some "B", some "2024-01-05"⟩]).1.map Prod.fst).get? 1 :=
  c6_collision_free_amended (fun _ => "PDF")
    [⟨some "A", some "2024-01-05"⟩, ⟨some "B", some "2024-01-05"⟩]
    0 1 (by decide) (by decide) (by decide) (by decide) (by decide)

/-- C7: Skip-on-missing-date — a record with a (non-empty) identifier
and no date field produces no file, prints the diagnostic naming the
skipped identifier, and leaves the collision dictionary untouched: the
run continues on the remaining records with the same `seen`, so their
numbering is unaffected. -/
theorem c7_skip_on_missing_date (fetch : String → String)
    (seen : List (String × Nat)) (invoice : Invoice) (rest : List Invoice)
    (s : String) (hidv : invoice.id = some s) (hs : s ≠ "")
    (hdate : invoice.invoiceDate = none) :
    export_pdfs fetch seen (invoice :: rest)
      = ((export_pdfs fetch seen rest).1,
         ("Skipping invoice " ++ s ++ " (missing invoiceDate).")
           :: (export_pdfs fetch seen rest).2) := by
  simp [export_pdfs, hidv, hdate, truthyStr, hs, skipMsg]

/-- C7 witness: a dateless record with id `X` ahead of a normal record. -/
theorem c7_skip_on_missing_date_witness :
    export_pdfs (fun s => s) [] (⟨some "X", none⟩ :: [⟨some "A", some "2024-01-05"⟩])
      = ((export_pdfs (fun s => s) [] [⟨some "A", some "2024-01-05"⟩]).1,
         ("Skipping invoice " ++ "X" ++ " (missing invoiceDate).")
           :: (export_pdfs (fun s => s) [] [⟨some "A", some "2024-01-05"⟩]).2) :=
  c7_skip_on_missing_date (fun s => s) [] ⟨some "X", none⟩
    [⟨some "A", some "2024-01-05"⟩] "X" rfl (by decide) rfl

/-- C8: Skip-on-missing-id — a record with no identifier field is
skipped silently: the run on it equals the run on the remaining records,
so no file, no message, and no change to any other record's numbering. -/
theorem c8_skip_on_missing_id (fetch : String → String)
    (seen : List (String × Nat)) (invoice : Invoice) (rest : List Invoice)
    (hidv : invoice.id = none) :
    export_pdfs fetch seen (invoice :: rest) = export_pdfs fetch seen rest := by
  simp [export_pdfs, hidv, truthyStr]

/-- C8 witness: an id-less record ahead of a normal record. -/
theorem c8_skip_on_missing_id_witness :
    export_pdfs (fun s => s) []
        (⟨none, some "2024-01-05"⟩ :: [⟨some "A", some "2024-01-05"⟩])
      = export_pdfs (fun s => s) [] [⟨some "A", some "2024-01-05"⟩] :=
  c8_skip_on_missing_id (fun s => s) [] ⟨none, some "2024-01-05"⟩
    [⟨some "A", some "2024-01-05"⟩] rfl

/-- C10: an identifier field present but equal to the empty string is
treated exactly like a missing identifier field — the falsiness check
`if not invoice_id` skips the record silently, the run equals both the
run on the same record with the field absent and the run without the
record, so nothing is fetched, written, printed, or counted. -/
theorem c10_empty_id_like_missing (fetch : String → String)
    (seen : List (String × Nat)) (d : Option String) (rest : List Invoice) :
    export_pdfs fetch seen (⟨some "", d⟩ :: rest)
      = export_pdfs fetch seen (⟨none, d⟩ :: rest)
    ∧ export_pdfs fetch seen (⟨some "", d⟩ :: rest) = export_pdfs fetch seen rest := by
  constructor <;> simp [export_pdfs, truthyStr]

/-- Model of the HTTP response to the login POST: whether
`raise_for_status` passes, and the JSON body as a string-valued object. -/
structure LoginResponse where
  statusOk : Bool
  body : List (String × String)
deriving DecidableEq

/-- Result of `_login`: the returned session id, or the raised error's
message. -/
inductive LoginResult where
  | ok (session_id : String)
  | error (msg : String)
deriving DecidableEq

/-- Python `data.get(key)` on a JSON object with string values. -/
def jsonGetStr (body : List (String × String)) (k : String) : Option String :=
  match body.find? (fun p => p.1 == k) with
  | some p => some p.2
  | none => none

/-- Rendering of the JSON body interpolated into the error message
(Python's formatting of the `data` dict). -/
def renderBody : List (String × String) → String
  | [] => ""
  | (k, v) :: rest => k ++ ": " ++ v ++ "; " ++ renderBody rest

/-- Replay of `_login` response handling, lines 53-60 of the source:
a failed status raises; otherwise `session_id = data.get("sessionId")`
is returned when truthy and a `RuntimeError` whose message embeds the
full response body is raised when falsy. -/
def _login (resp : LoginResponse) : LoginResult :=
  if resp.statusOk = false then LoginResult.error "HTTPError"
  else
    match jsonGetStr resp.body "sessionId" with
    | none => LoginResult.error
        ("Login succeeded but sessionId missing. Response: " ++ renderBody resp.body)
    | some session_id =>
      if session_id == "" then LoginResult.error
        ("Login succeeded but sessionId missing. Response: " ++ renderBody resp.body)
      else LoginResult.ok session_id

/-- C9 counterexample: a success response whose body carries the
`sessionId` field with the empty string as value — the field is present,
yet `_login` does not return it: the falsiness check raises instead, so
"if the field is present, the returned session token equals that field's
value" fails. -/
theorem c9_auth_counterexample :
    jsonGetStr [("sessionId", "")] "sessionId" = some ""
    ∧ _login ⟨true, [("sessionId", "")]⟩ ≠ LoginResult.ok ""
    ∧ _login ⟨true, [("sessionId", "")]⟩
      = LoginResult.error ("Login succeeded but sessionId missing. Response: "
          ++ renderBody [("sessionId", "")]) := by
  refine ⟨rfl, by decide, rfl⟩

/-- C9 (amended): on a success HTTP status, if the body has no
`sessionId` field — or has it with the empty string, which the code's
falsiness check treats the same way — `_login` fails with an error whose
message embeds the full response body; if the field is present with a
non-empty value, the returned session token equals that value. -/
theorem c9_auth_protocol (body : List (String × String)) :
    (jsonGetStr body "sessionId" = none →
      _login ⟨true, body⟩ = LoginResult.error
        ("Login succeeded but sessionId missing. Response: " ++ renderBody body))
    ∧ (∀ s, jsonGetStr body "sessionId" = some s → s ≠ "" →
        _login ⟨true, body⟩ = LoginResult.ok s)
    ∧ (jsonGetStr body "sessionId" = some "" →
      _login ⟨true, body⟩ = LoginResult.error
        ("Login succeeded but sessionId missing. Response: " ++ renderBody body)) := by
  refine ⟨?_, ?_, ?_⟩
  · intro h
    simp [_login, h]
  · intro s hs hne
    simp [_login, hs, hne]
  · intro h
    simp [_login, h]

/-- C9 witness: a body carrying `sessionId = abc123` yields that token. -/
theorem c9_auth_protocol_witness :
    jsonGetStr [("sessionId", "abc123")] "sessionId" = some "abc123"
    ∧ _login ⟨true, [("sessionId", "abc123")]⟩ = LoginResult.ok "abc123" :=
  ⟨rfl, (c9_auth_protocol [("sessionId", "abc123")]).2.1 "abc123" rfl (by decide)⟩
